import Mathlib

/-!
Verification of the SAML authentication backend (`social/backends/saml.py`).

The Python module is embedded shallowly:

* SAML attribute dictionaries become association lists `List (String × AttrVal)`,
  where `AttrVal` distinguishes the multi-valued attribute lists produced by
  `OneLogin_Saml2_Auth.get_attributes()` from the plain string stored under the
  synthetic key `name_id`.
* Python dictionary lookups `d[k]` that can raise `KeyError`, list indexing
  `[0]` that can raise `IndexError`, the `assert` in
  `SAMLIdentityProvider.__init__` and the `raise AuthFailed` in `auth_complete`
  are modelled with `Except SamlError`.
* The settings read through `self.setting(...)` become fields of a `Settings`
  structure; a setting read with a default in the code corresponds to a field
  holding either the stored value or that default.
* Heterogeneous configuration dictionaries (the one built by
  `generate_saml_config`) are modelled with the inductive value type `Val`.
-/

set_option autoImplicit false

/-- `urn:oid:2.5.4.3`, the common-name attribute (constant `OID_COMMON_NAME`). -/
def OID_COMMON_NAME : String := "urn:oid:2.5.4.3"

/-- `urn:oid:2.5.4.42`, the given-name attribute (constant `OID_GIVEN_NAME`). -/
def OID_GIVEN_NAME : String := "urn:oid:2.5.4.42"

/-- `urn:oid:0.9.2342.19200300.100.1.3`, the mail attribute (constant `OID_MAIL`). -/
def OID_MAIL : String := "urn:oid:0.9.2342.19200300.100.1.3"

/-- `urn:oid:2.5.4.4`, the surname attribute (constant `OID_SURNAME`). -/
def OID_SURNAME : String := "urn:oid:2.5.4.4"

/-- `urn:oid:0.9.2342.19200300.100.1.1`, the user-id attribute (constant `OID_USERID`). -/
def OID_USERID : String := "urn:oid:0.9.2342.19200300.100.1.1"

/-- A value stored in a SAML attribute dictionary: either the list of strings
returned by `get_attributes()` for that attribute, or the plain string that
`auth_complete` stores under the key `name_id`. -/
inductive AttrVal where
  | vals (vs : List String)
  | str (s : String)
deriving DecidableEq

/-- Python `v[0]` on an attribute value: the head of a value list, or the
one-character string at index 0 of a plain string.  `none` models the
`IndexError` raised when the list or string is empty. -/
def AttrVal.first : AttrVal → Option String
  | .vals vs => vs.head?
  | .str s => if s.isEmpty then none else some s.front.toString

/-- The exceptions the Python code can raise, one constructor per raise site:
`unknownProvider` is the `KeyError` from `ENABLED_IDPS[idp_name]` in `get_idp`;
`invalidConfiguration` is the failed `assert` in `SAMLIdentityProvider.__init__`;
`missingAttribute` is the `KeyError` from `attributes[key]` in
`get_user_permanent_id`; `emptyAttribute` is the `IndexError` from `[...][0]`
on an empty value sequence; `keyError` is a `KeyError` from a required
configuration entry (`conf['entity_id']` etc.); `authFailed` is the
`AuthFailed` raised by `auth_complete`. -/
inductive SamlError where
  | unknownProvider (name : String)
  | invalidConfiguration (msg : String)
  | missingAttribute (key : String)
  | emptyAttribute
  | keyError (key : String)
  | authFailed (errors : List String) (reason : String)
deriving DecidableEq

/-- Python `d.get(k)` / `d[k]` lookup on a dictionary modelled as an
association list: the value at the first matching key, if any. -/
def alookup {β : Type} : List (String × β) → String → Option β
  | [], _ => none
  | (k, v) :: rest, key => if k = key then some v else alookup rest key

/-- Python `d[k] = v` on a dictionary modelled as an association list:
replace the value at an existing key, or append a new entry. -/
def dictSet {β : Type} : List (String × β) → String → β → List (String × β)
  | [], key, v => [(key, v)]
  | (k, w) :: rest, key, v =>
      if k = key then (k, v) :: rest else (k, w) :: dictSet rest key v

/-- Python `d.update(e)`: assign every entry of `e` into `d`, in order. -/
def dictUpdate {β : Type} (d e : List (String × β)) : List (String × β) :=
  e.foldl (fun acc kv => dictSet acc kv.1 kv.2) d

/-- Wrapper around configuration for a SAML identity provider
(class `SAMLIdentityProvider`): the provider `name` and the keyword-argument
configuration dictionary `conf`.  Only string-valued configuration entries are
used by the code, so `conf` maps strings to strings. -/
structure SAMLIdentityProvider where
  name : String
  conf : List (String × String)
deriving DecidableEq

/-- `SAMLIdentityProvider.__init__`: store `name` and `conf`, but first assert
that `name` contains no colon and no space (a failed assertion is the
`invalidConfiguration` error). -/
def SAMLIdentityProvider.mk? (name : String) (conf : List (String × String)) :
    Except SamlError SAMLIdentityProvider :=
  if ':' ∈ name.data ∨ ' ' ∈ name.data then
    .error (.invalidConfiguration "IdP name should be a slug (short, no spaces)")
  else
    .ok ⟨name, conf⟩

/-- `SAMLIdentityProvider.get_user_permanent_id`: look up the attribute named
by `conf['user_permanent_id']` (default `OID_USERID`) and take its first
value.  A missing key raises `KeyError` (`missingAttribute`); an empty value
sequence raises `IndexError` (`emptyAttribute`). -/
def SAMLIdentityProvider.get_user_permanent_id (idp : SAMLIdentityProvider)
    (attributes : List (String × AttrVal)) : Except SamlError String :=
  let key := (alookup idp.conf "user_permanent_id").getD OID_USERID
  match alookup attributes key with
  | none => .error (.missingAttribute key)
  | some v =>
      match v.first with
      | none => .error .emptyAttribute
      | some s => .ok s

/-- `SAMLIdentityProvider.get_attr`: resolve the attribute key as
`conf.get(conf_key, default_attribute)`, then return the first value of that
attribute if the key is present, and `None` (here `none`) otherwise.  A
present key with an empty value sequence raises `IndexError`
(`emptyAttribute`). -/
def SAMLIdentityProvider.get_attr (idp : SAMLIdentityProvider)
    (attributes : List (String × AttrVal)) (conf_key default_attribute : String) :
    Except SamlError (Option String) :=
  let key := (alookup idp.conf conf_key).getD default_attribute
  match alookup attributes key with
  | none => .ok none
  | some v =>
      match v.first with
      | none => .error .emptyAttribute
      | some s => .ok (some s)

/-- The user-detail dictionary built by
`SAMLIdentityProvider.get_user_details`; each field is `None` when the
corresponding attribute is absent. -/
structure UserDetails where
  fullname : Option String
  first_name : Option String
  last_name : Option String
  username : Option String
  email : Option String
deriving DecidableEq

/-- `SAMLIdentityProvider.get_user_details`: build the detail dictionary with
one `get_attr` call per field, in the evaluation order of the Python dict
literal; the first raised exception propagates. -/
def SAMLIdentityProvider.get_user_details (idp : SAMLIdentityProvider)
    (attributes : List (String × AttrVal)) : Except SamlError UserDetails :=
  match idp.get_attr attributes "attr_full_name" OID_COMMON_NAME with
  | .error e => .error e
  | .ok fullname =>
    match idp.get_attr attributes "attr_first_name" OID_GIVEN_NAME with
    | .error e => .error e
    | .ok first_name =>
      match idp.get_attr attributes "attr_last_name" OID_SURNAME with
      | .error e => .error e
      | .ok last_name =>
        match idp.get_attr attributes "attr_username" OID_USERID with
        | .error e => .error e
        | .ok username =>
          match idp.get_attr attributes "attr_email" OID_MAIL with
          | .error e => .error e
          | .ok email =>
            .ok ⟨fullname, first_name, last_name, username, email⟩

/-- The five profile roles looked up by `get_user_details`. -/
inductive Role where
  | fullname
  | first_name
  | last_name
  | username
  | email
deriving DecidableEq

/-- The configuration key a role's attribute override is read from. -/
def Role.confKey : Role → String
  | .fullname => "attr_full_name"
  | .first_name => "attr_first_name"
  | .last_name => "attr_last_name"
  | .username => "attr_username"
  | .email => "attr_email"

/-- The default OID attribute key used for a role when no override is set. -/
def Role.defaultAttr : Role → String
  | .fullname => OID_COMMON_NAME
  | .first_name => OID_GIVEN_NAME
  | .last_name => OID_SURNAME
  | .username => OID_USERID
  | .email => OID_MAIL

/-- Project the field of `UserDetails` corresponding to a role. -/
def UserDetails.field (d : UserDetails) : Role → Option String
  | .fullname => d.fullname
  | .first_name => d.first_name
  | .last_name => d.last_name
  | .username => d.username
  | .email => d.email

/-- Reading one attribute directly at a given key: the first value if the key
is present, `none` if absent, `emptyAttribute` if present but empty.
`get_attr` equals `attrAt` at the resolved key (see `get_attr_eq_attrAt`). -/
def attrAt (attributes : List (String × AttrVal)) (key : String) :
    Except SamlError (Option String) :=
  match alookup attributes key with
  | none => .ok none
  | some v =>
      match v.first with
      | none => .error .emptyAttribute
      | some s => .ok (some s)

/-- A heterogeneous value of the configuration dictionary handed to
`OneLogin_Saml2_Auth` by `generate_saml_config`. -/
inductive Val where
  | str (s : String)
  | bool (b : Bool)
  | list (vs : List Val)
  | dict (entries : List (String × Val))

/-- The relevant `SOCIAL_AUTH_SAML_*` settings.  `ENABLED_IDPS` maps a
provider name to its keyword-argument configuration; `SECURITY_CONFIG` and
`SP_EXTRA` default to the empty dictionary when unset, `SP_NAMEID_FORMATS`
to the empty list, exactly as the defaults passed to `self.setting`. -/
structure Settings where
  ENABLED_IDPS : List (String × List (String × String)) := []
  TECHNICAL_CONTACT : Val := .dict []
  SUPPORT_CONTACT : Val := .dict []
  ORG_INFO : Val := .dict []
  SP_ENTITY_ID : String := ""
  SP_NAMEID_FORMATS : Val := .list []
  SP_PUBLIC_CERT : String := ""
  SP_PRIVATE_KEY : String := ""
  SECURITY_CONFIG : List (String × Val) := []
  SP_EXTRA : List (String × Val) := []

/-- The state of a `SAMLAuth` backend instance needed by the modelled
methods: its settings and the shared completion URL `self.redirect_uri`. -/
structure SAMLAuth where
  settings : Settings
  redirect_uri : String := ""

/-- `SAMLAuth.get_idp`: look the name up in the `ENABLED_IDPS` setting
(`KeyError`, i.e. `unknownProvider`, when absent) and construct a
`SAMLIdentityProvider` from it (which can fail its name assertion). -/
def SAMLAuth.get_idp (b : SAMLAuth) (idp_name : String) :
    Except SamlError SAMLIdentityProvider :=
  match alookup b.settings.ENABLED_IDPS idp_name with
  | none => .error (.unknownProvider idp_name)
  | some idp_config => SAMLIdentityProvider.mk? idp_name idp_config

/-- The `response` dictionary built by `auth_complete` and consumed by
`get_user_id` / `get_user_details`. -/
structure SamlResponse where
  idp_name : String
  attributes : List (String × AttrVal)
  session_index : String := ""
deriving DecidableEq

/-- `SAMLAuth.get_user_id`: resolve the IdP named in the response, extract the
permanent id from the response attributes, and prefix it with the IdP name and
a colon.  The `details` argument is ignored, as in the code. -/
def SAMLAuth.get_user_id (b : SAMLAuth) (details : UserDetails)
    (response : SamlResponse) : Except SamlError String :=
  match b.get_idp response.idp_name with
  | .error e => .error e
  | .ok idp =>
      match idp.get_user_permanent_id response.attributes with
      | .error e => .error e
      | .ok uid => .ok (idp.name ++ ":" ++ uid)

/-- `SAMLAuth.get_user_details` (the backend method): resolve the IdP named in
the response and delegate to the provider's `get_user_details`. -/
def SAMLAuth.get_user_details (b : SAMLAuth) (response : SamlResponse) :
    Except SamlError UserDetails :=
  match b.get_idp response.idp_name with
  | .error e => .error e
  | .ok idp => idp.get_user_details response.attributes

/-- What the external `OneLogin_Saml2_Auth` engine reports to `auth_complete`
after `process_response()`: the error list, the authentication flag, the last
error reason, the attribute dictionary, the NameID and the session index. -/
structure EngineResult where
  errors : List String
  isAuthenticated : Bool
  lastErrorReason : String
  attributes : List (String × AttrVal)
  nameId : String
  sessionIndex : String
deriving DecidableEq

/-- `SAMLAuth.auth_complete`: read the IdP name from the `RelayState`, resolve
the IdP, and after the engine has processed the response raise `AuthFailed`
wrapping the engine's errors and last error reason when the error list is
non-empty or the session is not authenticated; otherwise store the NameID
under the `name_id` key, run the no-op `_check_entitlements`, and hand the
response dictionary to the pipeline (modelled as returning it). -/
def SAMLAuth.auth_complete (b : SAMLAuth) (relayState : String)
    (engine : EngineResult) : Except SamlError SamlResponse :=
  match b.get_idp relayState with
  | .error e => .error e
  | .ok _idp =>
      if engine.errors ≠ [] ∨ engine.isAuthenticated = false then
        .error (.authFailed engine.errors engine.lastErrorReason)
      else
        let attributes := dictSet engine.attributes "name_id" (.str engine.nameId)
        .ok { idp_name := relayState
              attributes := attributes
              session_index := engine.sessionIndex }

/-- `conf['entity_id']`: required configuration entry. -/
def SAMLIdentityProvider.entity_id (idp : SAMLIdentityProvider) :
    Except SamlError String :=
  match alookup idp.conf "entity_id" with
  | none => .error (.keyError "entity_id")
  | some v => .ok v

/-- `conf['url']`: required configuration entry, the SSO URL. -/
def SAMLIdentityProvider.sso_url (idp : SAMLIdentityProvider) :
    Except SamlError String :=
  match alookup idp.conf "url" with
  | none => .error (.keyError "url")
  | some v => .ok v

/-- `conf.get('binding', HTTP-Redirect)`: the SSO binding with its default. -/
def SAMLIdentityProvider.sso_binding (idp : SAMLIdentityProvider) : String :=
  (alookup idp.conf "binding").getD "urn:oasis:names:tc:SAML:2.0:bindings:HTTP-Redirect"

/-- `conf['x509cert']`: required configuration entry. -/
def SAMLIdentityProvider.x509cert (idp : SAMLIdentityProvider) :
    Except SamlError String :=
  match alookup idp.conf "x509cert" with
  | none => .error (.keyError "x509cert")
  | some v => .ok v

/-- `SAMLIdentityProvider.saml_config_dict`: the IdP configuration dictionary
in the format required by python-saml. -/
def SAMLIdentityProvider.saml_config_dict (idp : SAMLIdentityProvider) :
    Except SamlError Val :=
  match idp.entity_id with
  | .error e => .error e
  | .ok eid =>
    match idp.sso_url with
    | .error e => .error e
    | .ok url =>
      match idp.x509cert with
      | .error e => .error e
      | .ok cert =>
        .ok (.dict
          [("entityId", .str eid),
           ("singleSignOnService", .dict
             [("url", .str url), ("binding", .str idp.sso_binding)]),
           ("x509cert", .str cert)])

/-- Python `config[k].update(e)` on a nested dictionary: replace the dict
value stored at key `k` by its update with `e`; entries at other keys, and a
non-dict value at `k`, are unchanged. -/
def updateAt : List (String × Val) → String → List (String × Val) →
    List (String × Val)
  | [], _, _ => []
  | (k1, v1) :: rest, k, e =>
      if k1 = k then
        (k1, match v1 with
             | Val.dict sub => Val.dict (dictUpdate sub e)
             | v => v) :: rest
      else (k1, v1) :: updateAt rest k e

/-- `SAMLAuth.generate_saml_config`: build the python-saml configuration
dictionary, then merge the `SECURITY_CONFIG` setting into its `security`
sub-dictionary and the `SP_EXTRA` setting into its `sp` sub-dictionary. -/
def SAMLAuth.generate_saml_config (b : SAMLAuth) (idp : SAMLIdentityProvider) :
    Except SamlError (List (String × Val)) :=
  match idp.saml_config_dict with
  | .error e => .error e
  | .ok idpDict =>
      let abs_completion_url := b.redirect_uri
      let config : List (String × Val) :=
        [("contactPerson", .dict
           [("technical", b.settings.TECHNICAL_CONTACT),
            ("support", b.settings.SUPPORT_CONTACT)]),
         ("debug", .bool true),
         ("idp", idpDict),
         ("organization", b.settings.ORG_INFO),
         ("security", .dict
           [("metadataValidUntil", .str ""),
            ("metadataCacheDuration", .str "P10D")]),
         ("sp", .dict
           [("assertionConsumerService", .dict
              [("url", .str abs_completion_url),
               ("binding", .str "urn:oasis:names:tc:SAML:2.0:bindings:HTTP-POST")]),
            ("entityId", .str b.settings.SP_ENTITY_ID),
            ("NameIDFormats", b.settings.SP_NAMEID_FORMATS),
            ("x509cert", .str b.settings.SP_PUBLIC_CERT),
            ("privateKey", .str b.settings.SP_PRIVATE_KEY)]),
         ("strict", .bool true)]
      let config := updateAt config "security" b.settings.SECURITY_CONFIG
      let config := updateAt config "sp" b.settings.SP_EXTRA
      .ok config

/-! ### Helper lemmas -/

/-- `get_attr` is `attrAt` at the resolved key. -/
theorem get_attr_eq_attrAt (idp : SAMLIdentityProvider)
    (attributes : List (String × AttrVal)) (conf_key default_attribute : String) :
    idp.get_attr attributes conf_key default_attribute
      = attrAt attributes ((alookup idp.conf conf_key).getD default_attribute) := rfl

/-- When `get_user_details` succeeds, each field holds exactly the value the
corresponding `get_attr` call returned. -/
theorem get_user_details_field (idp : SAMLIdentityProvider)
    (attributes : List (String × AttrVal)) (d : UserDetails) (r : Role)
    (h : idp.get_user_details attributes = .ok d) :
    idp.get_attr attributes r.confKey r.defaultAttr = .ok (d.field r) := by
  unfold SAMLIdentityProvider.get_user_details at h
  cases h1 : idp.get_attr attributes "attr_full_name" OID_COMMON_NAME with
  | error e => rw [h1] at h; exact absurd h (by simp)
  | ok fullname =>
  rw [h1] at h
  cases h2 : idp.get_attr attributes "attr_first_name" OID_GIVEN_NAME with
  | error e => rw [h2] at h; exact absurd h (by simp)
  | ok first_name =>
  rw [h2] at h
  cases h3 : idp.get_attr attributes "attr_last_name" OID_SURNAME with
  | error e => rw [h3] at h; exact absurd h (by simp)
  | ok last_name =>
  rw [h3] at h
  cases h4 : idp.get_attr attributes "attr_username" OID_USERID with
  | error e => rw [h4] at h; exact absurd h (by simp)
  | ok username =>
  rw [h4] at h
  cases h5 : idp.get_attr attributes "attr_email" OID_MAIL with
  | error e => rw [h5] at h; exact absurd h (by simp)
  | ok email =>
  rw [h5] at h
  simp only [Except.ok.injEq] at h
  cases r <;>
    simp only [Role.confKey, Role.defaultAttr, UserDetails.field, ← h,
      h1, h2, h3, h4, h5]

/-- `updateAt` leaves lookups at other keys unchanged. -/
theorem alookup_updateAt_ne (d : List (String × Val)) (k : String)
    (e : List (String × Val)) (k2 : String) (hne : k2 ≠ k) :
    alookup (updateAt d k e) k2 = alookup d k2 := by
  induction d with
  | nil => rfl
  | cons kv rest ih =>
      obtain ⟨k1, v1⟩ := kv
      by_cases h1 : k1 = k
      · subst h1
        have h2 : ¬k1 = k2 := fun h => hne h.symm
        simp only [updateAt, if_pos rfl, alookup, if_neg h2]
      · simp only [updateAt, if_neg h1, alookup]
        by_cases h2 : k1 = k2
        · simp [h2]
        · simp [h2, ih]

/-! ### Concrete fixtures used by witnesses and examples -/

/-- A backend whose settings enable the two providers `idpA` and `idpB`. -/
def cAB : SAMLAuth :=
  { settings := { ENABLED_IDPS := [("idpA", []), ("idpB", [])] } }

/-- A backend whose settings enable the single provider `testshib`. -/
def cTestshib : SAMLAuth :=
  { settings := { ENABLED_IDPS := [("testshib", [])] } }

/-- An attribute set supplying only the permanent id value `u1`. -/
def cAttrsU1 : List (String × AttrVal) := [(OID_USERID, .vals ["u1"])]

/-- The attribute set of the testshib example, carrying `alice123`. -/
def cAliceAttrs : List (String × AttrVal) := [(OID_USERID, .vals ["alice123"])]

/-- An attribute set containing only an email attribute. -/
def cEmailOnly : List (String × AttrVal) := [(OID_MAIL, .vals ["jane@example.com"])]

/-- A detail record with every field absent. -/
def cNoDetails : UserDetails := ⟨none, none, none, none, none⟩

/-- `get_idp` only ever returns a provider carrying the requested name. -/
theorem get_idp_name (b : SAMLAuth) (nm : String) (idp : SAMLIdentityProvider)
    (h : b.get_idp nm = .ok idp) : idp.name = nm := by
  unfold SAMLAuth.get_idp at h
  split at h
  · exact absurd h (by simp)
  · unfold SAMLIdentityProvider.mk? at h
    split at h
    · exact absurd h (by simp)
    · simp only [Except.ok.injEq] at h
      rw [← h]

/-! ### Claims -/

/-- Claim C1: whenever the IdP resolves and a permanent id `uid` is extracted
from the response attributes, `get_user_id` returns the provider name, a
colon, and `uid`; in particular the providers `idpA` and `idpB`, both
supplying permanent id `u1`, yield the distinct identifiers `idpA:u1` and
`idpB:u1`. -/
theorem c1_get_user_id_prefixes_idp_name (b : SAMLAuth) (details : UserDetails)
    (response : SamlResponse) (idp : SAMLIdentityProvider) (uid : String)
    (hidp : b.get_idp response.idp_name = .ok idp)
    (huid : idp.get_user_permanent_id response.attributes = .ok uid) :
    b.get_user_id details response = .ok (response.idp_name ++ ":" ++ uid) ∧
    cAB.get_user_id cNoDetails { idp_name := "idpA", attributes := cAttrsU1 }
      = .ok "idpA:u1" ∧
    cAB.get_user_id cNoDetails { idp_name := "idpB", attributes := cAttrsU1 }
      = .ok "idpB:u1" ∧
    "idpA:u1" ≠ "idpB:u1" := by
  refine ⟨?_, by rfl, by rfl, by decide⟩
  have hname := get_idp_name b response.idp_name idp hidp
  unfold SAMLAuth.get_user_id
  simp only [hidp, huid, hname]

/-- Witness for C1 at the concrete `idpA` / `u1` input. -/
theorem c1_witness :
    cAB.get_user_id cNoDetails { idp_name := "idpA", attributes := cAttrsU1 }
      = .ok "idpA:u1" :=
  (c1_get_user_id_prefixes_idp_name cAB cNoDetails
    { idp_name := "idpA", attributes := cAttrsU1 } ⟨"idpA", []⟩ "u1"
    (by rfl) (by rfl)).2.1

/-- Claim C2: with no `user_permanent_id` override and the default user-id
attribute present with a non-empty value sequence, `get_user_permanent_id`
returns the first value; on `[alice123]` for provider `testshib` the
externally visible id is `testshib:alice123`. -/
theorem c2_permanent_id_first_value (name : String)
    (conf : List (String × String)) (attributes : List (String × AttrVal))
    (v : String) (vs : List String)
    (hov : alookup conf "user_permanent_id" = none)
    (hat : alookup attributes OID_USERID = some (.vals (v :: vs))) :
    SAMLIdentityProvider.get_user_permanent_id ⟨name, conf⟩ attributes = .ok v ∧
    cTestshib.get_user_id cNoDetails
      { idp_name := "testshib", attributes := cAliceAttrs }
      = .ok "testshib:alice123" := by
  refine ⟨?_, by rfl⟩
  simp only [SAMLIdentityProvider.get_user_permanent_id, hov, Option.getD_none,
    hat, AttrVal.first, List.head?]

/-- Witness for C2 at the concrete `alice123` input. -/
theorem c2_witness :
    SAMLIdentityProvider.get_user_permanent_id ⟨"testshib", []⟩ cAliceAttrs
      = .ok "alice123" :=
  (c2_permanent_id_first_value "testshib" [] cAliceAttrs "alice123" []
    (by rfl) (by rfl)).1

/-- Claim C3: when the configured (or default) permanent-id attribute key is
absent from the attributes, `get_user_permanent_id` fails with the missing
attribute error. -/
theorem c3_permanent_id_missing_key (name : String)
    (conf : List (String × String)) (attributes : List (String × AttrVal))
    (habs : alookup attributes
      ((alookup conf "user_permanent_id").getD OID_USERID) = none) :
    SAMLIdentityProvider.get_user_permanent_id ⟨name, conf⟩ attributes
      = .error (.missingAttribute
          ((alookup conf "user_permanent_id").getD OID_USERID)) := by
  simp only [SAMLIdentityProvider.get_user_permanent_id, habs]

/-- Witness for C3 at an empty attribute set. -/
theorem c3_witness :
    SAMLIdentityProvider.get_user_permanent_id ⟨"testshib", []⟩ []
      = .error (.missingAttribute OID_USERID) :=
  c3_permanent_id_missing_key "testshib" [] [] (by rfl)

/-- Claim C4: each of the five roles is looked up independently and a role
whose resolved attribute key is absent yields a `none` field, not a failure;
on an attribute set containing only the email key, `get_user_details` returns
a detail record with only the email set. -/
theorem c4_missing_role_yields_none :
    (∀ (name : String) (conf : List (String × String))
       (attributes : List (String × AttrVal)) (r : Role),
       alookup attributes ((alookup conf r.confKey).getD r.defaultAttr) = none →
       SAMLIdentityProvider.get_attr ⟨name, conf⟩ attributes r.confKey r.defaultAttr
         = .ok none) ∧
    (∀ (name : String) (conf : List (String × String))
       (attributes : List (String × AttrVal)) (r : Role) (d : UserDetails),
       alookup attributes ((alookup conf r.confKey).getD r.defaultAttr) = none →
       SAMLIdentityProvider.get_user_details ⟨name, conf⟩ attributes = .ok d →
       d.field r = none) ∧
    SAMLIdentityProvider.get_user_details ⟨"testshib", []⟩ cEmailOnly
      = .ok ⟨none, none, none, none, some "jane@example.com"⟩ := by
  have habs : ∀ (name : String) (conf : List (String × String))
      (attributes : List (String × AttrVal)) (r : Role),
      alookup attributes ((alookup conf r.confKey).getD r.defaultAttr) = none →
      SAMLIdentityProvider.get_attr ⟨name, conf⟩ attributes r.confKey r.defaultAttr
        = .ok none := by
    intro name conf attributes r h
    simp only [SAMLIdentityProvider.get_attr, h]
  refine ⟨habs, ?_, by rfl⟩
  intro name conf attributes r d h hd
  have hfield := get_user_details_field ⟨name, conf⟩ attributes d r hd
  rw [habs name conf attributes r h] at hfield
  exact (Except.ok.injEq _ _).mp hfield.symm

/-- Witness for C4: the username role on an attribute set holding only an
email attribute resolves to `none` without a failure. -/
theorem c4_witness :
    SAMLIdentityProvider.get_attr ⟨"testshib", []⟩ cEmailOnly
      "attr_username" OID_USERID = .ok none :=
  c4_missing_role_yields_none.1 "testshib" [] cEmailOnly .username (by rfl)

/-- Claim C5: a configuration override for a role's attribute key makes
`get_attr`, and hence the corresponding field of `get_user_details`, read the
value stored at the overriding key instead of the OID default. -/
theorem c5_role_override_redirects_lookup (name : String)
    (conf : List (String × String)) (attributes : List (String × AttrVal))
    (r : Role) (ovr : String) (d : UserDetails)
    (hov : alookup conf r.confKey = some ovr)
    (hd : SAMLIdentityProvider.get_user_details ⟨name, conf⟩ attributes = .ok d) :
    SAMLIdentityProvider.get_attr ⟨name, conf⟩ attributes r.confKey r.defaultAttr
      = attrAt attributes ovr ∧
    attrAt attributes ovr = .ok (d.field r) := by
  have heq : SAMLIdentityProvider.get_attr ⟨name, conf⟩ attributes r.confKey
      r.defaultAttr = attrAt attributes ovr := by
    rw [get_attr_eq_attrAt, hov, Option.getD_some]
  refine ⟨heq, ?_⟩
  rw [← heq]
  exact get_user_details_field ⟨name, conf⟩ attributes d r hd

/-- Witness for C5: with `attr_username` overridden to `custom:attr`, the
username field is read from `custom:attr`. -/
theorem c5_witness :
    SAMLIdentityProvider.get_attr
        ⟨"testshib", [("attr_username", "custom:attr")]⟩
        [("custom:attr", .vals ["bob"])] "attr_username" OID_USERID
      = attrAt [("custom:attr", .vals ["bob"])] "custom:attr" ∧
    attrAt [("custom:attr", .vals ["bob"])] "custom:attr" = .ok (some "bob") :=
  c5_role_override_redirects_lookup "testshib" [("attr_username", "custom:attr")]
    [("custom:attr", .vals ["bob"])] .username "custom:attr"
    ⟨none, none, none, some "bob", none⟩ (by rfl) (by rfl)

/-- Claim C6: constructing a provider whose name contains a colon or a space
fails with the invalid-configuration error, and construction succeeds for
every name containing neither. -/
theorem c6_name_slug_validation (name : String) (conf : List (String × String)) :
    (':' ∈ name.data ∨ ' ' ∈ name.data →
      SAMLIdentityProvider.mk? name conf
        = .error (.invalidConfiguration
            "IdP name should be a slug (short, no spaces)")) ∧
    (¬(':' ∈ name.data ∨ ' ' ∈ name.data) →
      SAMLIdentityProvider.mk? name conf = .ok ⟨name, conf⟩) := by
  constructor
  · intro h
    simp only [SAMLIdentityProvider.mk?, if_pos h]
  · intro h
    simp only [SAMLIdentityProvider.mk?, if_neg h]

/-- Witness for C6: `a:b` and `a b` are rejected, `ab` is accepted. -/
theorem c6_witness :
    SAMLIdentityProvider.mk? "a:b" []
      = .error (.invalidConfiguration
          "IdP name should be a slug (short, no spaces)") ∧
    SAMLIdentityProvider.mk? "a b" []
      = .error (.invalidConfiguration
          "IdP name should be a slug (short, no spaces)") ∧
    SAMLIdentityProvider.mk? "ab" [] = .ok ⟨"ab", []⟩ :=
  ⟨(c6_name_slug_validation "a:b" []).1 (by decide),
   (c6_name_slug_validation "a b" []).1 (by decide),
   (c6_name_slug_validation "ab" []).2 (by decide)⟩

/-- A backend whose enabled-IdPs table registers the (ill-formed) provider
name `a:b`. -/
def cBadReg : SAMLAuth := { settings := { ENABLED_IDPS := [("a:b", [])] } }

/-- Counterexample to claim C7 as stated: the name `a:b` is registered in the
enabled-IdPs table, yet `get_idp` does not return a configuration — it fails
with the invalid-configuration error from the name assertion. -/
theorem c7_counterexample :
    alookup cBadReg.settings.ENABLED_IDPS "a:b" = some [] ∧
    cBadReg.get_idp "a:b"
      = .error (.invalidConfiguration
          "IdP name should be a slug (short, no spaces)") :=
  ⟨rfl, rfl⟩

/-- Claim C7 (amended): for every registered provider name containing neither
colon nor space, `get_idp` returns a configuration whose name equals the
input; for every unregistered name it fails with the unknown-provider error;
for a registered name containing a colon or space it fails with the
invalid-configuration error. -/
theorem c7_get_idp_resolution (b : SAMLAuth) (nm : String)
    (conf : List (String × String)) :
    (alookup b.settings.ENABLED_IDPS nm = some conf →
      ¬(':' ∈ nm.data ∨ ' ' ∈ nm.data) →
      b.get_idp nm = .ok ⟨nm, conf⟩) ∧
    (alookup b.settings.ENABLED_IDPS nm = none →
      b.get_idp nm = .error (.unknownProvider nm)) ∧
    (alookup b.settings.ENABLED_IDPS nm = some conf →
      ':' ∈ nm.data ∨ ' ' ∈ nm.data →
      b.get_idp nm
        = .error (.invalidConfiguration
            "IdP name should be a slug (short, no spaces)")) := by
  refine ⟨?_, ?_, ?_⟩
  · intro hreg hok
    simp only [SAMLAuth.get_idp, hreg, SAMLIdentityProvider.mk?, if_neg hok]
  · intro habs
    simp only [SAMLAuth.get_idp, habs]
  · intro hreg hbad
    simp only [SAMLAuth.get_idp, hreg, SAMLIdentityProvider.mk?, if_pos hbad]

/-- Witness for C7: resolution of a registered name, an unregistered name,
and a registered ill-formed name. -/
theorem c7_witness :
    cTestshib.get_idp "testshib" = .ok ⟨"testshib", []⟩ ∧
    cTestshib.get_idp "other" = .error (.unknownProvider "other") ∧
    cBadReg.get_idp "a:b"
      = .error (.invalidConfiguration
          "IdP name should be a slug (short, no spaces)") :=
  ⟨(c7_get_idp_resolution cTestshib "testshib" []).1 (by rfl) (by decide),
   (c7_get_idp_resolution cTestshib "other" []).2.1 (by rfl),
   (c7_get_idp_resolution cBadReg "a:b" []).2.2 (by rfl) (by decide)⟩

/-- An engine result reporting a protocol error. -/
def cBadEngine : EngineResult :=
  { errors := ["bad"], isAuthenticated := true, lastErrorReason := "why",
    attributes := [], nameId := "n1", sessionIndex := "s1" }

/-- An engine result reporting successful authentication with no errors. -/
def cGoodEngine : EngineResult :=
  { errors := [], isAuthenticated := true, lastErrorReason := "",
    attributes := [], nameId := "n1", sessionIndex := "s1" }

/-- Claim C8: once the relayed provider name resolves, `auth_complete` raises
the authentication failure wrapping the engine's errors and last error reason
exactly when the engine reports a non-empty error list or a non-authenticated
session; when neither holds it hands the response (attributes extended with
`name_id`) to the pipeline. -/
theorem c8_auth_complete_validates_engine (b : SAMLAuth) (relay : String)
    (engine : EngineResult) (idp : SAMLIdentityProvider)
    (hidp : b.get_idp relay = .ok idp) :
    (b.auth_complete relay engine
        = .error (.authFailed engine.errors engine.lastErrorReason)
      ↔ (engine.errors ≠ [] ∨ engine.isAuthenticated = false)) ∧
    (engine.errors = [] → engine.isAuthenticated = true →
      b.auth_complete relay engine
        = .ok { idp_name := relay
                attributes := dictSet engine.attributes "name_id" (.str engine.nameId)
                session_index := engine.sessionIndex }) := by
  have hbody : b.auth_complete relay engine =
      (if engine.errors ≠ [] ∨ engine.isAuthenticated = false then
        .error (.authFailed engine.errors engine.lastErrorReason)
      else
        .ok { idp_name := relay
              attributes := dictSet engine.attributes "name_id" (.str engine.nameId)
              session_index := engine.sessionIndex }) := by
    unfold SAMLAuth.auth_complete
    simp only [hidp]
  by_cases hc : engine.errors ≠ [] ∨ engine.isAuthenticated = false
  · rw [hbody, if_pos hc]
    refine ⟨⟨fun _ => hc, fun _ => rfl⟩, fun h1 h2 => ?_⟩
    rcases hc with hc | hc
    · exact absurd h1 hc
    · rw [h2] at hc; exact absurd hc (by simp)
  · rw [hbody, if_neg hc]
    refine ⟨⟨fun h => absurd h (by simp), fun h => absurd h hc⟩, fun _ _ => rfl⟩

/-- Witness for C8: a reported error fails authentication; a clean result
reaches the pipeline with the NameID stored under `name_id`. -/
theorem c8_witness :
    cTestshib.auth_complete "testshib" cBadEngine
      = .error (.authFailed ["bad"] "why") ∧
    cTestshib.auth_complete "testshib" cGoodEngine
      = .ok { idp_name := "testshib"
              attributes := [("name_id", .str "n1")]
              session_index := "s1" } :=
  ⟨(c8_auth_complete_validates_engine cTestshib "testshib" cBadEngine
      ⟨"testshib", []⟩ (by rfl)).1.mpr (by decide),
   (c8_auth_complete_validates_engine cTestshib "testshib" cGoodEngine
      ⟨"testshib", []⟩ (by rfl)).2 rfl rfl⟩

/-- Claim C9: whatever the settings, the configuration dictionary built by
`generate_saml_config` carries the top-level entry `strict = True`; the
`SECURITY_CONFIG` merge touches only the `security` sub-dictionary and the
`SP_EXTRA` merge only the `sp` sub-dictionary. -/
theorem c9_strict_mode_forced (b : SAMLAuth) (idp : SAMLIdentityProvider)
    (cfg : List (String × Val)) (h : b.generate_saml_config idp = .ok cfg) :
    alookup cfg "strict" = some (.bool true) := by
  unfold SAMLAuth.generate_saml_config at h
  split at h
  · exact absurd h (by simp)
  · simp only [Except.ok.injEq] at h
    subst h
    rw [alookup_updateAt_ne _ _ _ _ (by decide),
        alookup_updateAt_ne _ _ _ _ (by decide)]
    rfl

/-- A provider configuration with the entries `saml_config_dict` requires. -/
def cIdp9 : SAMLIdentityProvider :=
  ⟨"testshib",
   [("entity_id", "https://idp.testshib.org/idp/shibboleth"),
    ("url", "https://idp.testshib.org/idp/profile/SAML2/Redirect/SSO"),
    ("x509cert", "CERT")]⟩

/-- A backend with entirely default settings. -/
def cB9 : SAMLAuth := { settings := {} }

/-- The configuration dictionary `generate_saml_config` produces for `cB9`
and `cIdp9`. -/
def cCfg9 : List (String × Val) :=
  [("contactPerson", .dict [("technical", .dict []), ("support", .dict [])]),
   ("debug", .bool true),
   ("idp", .dict
     [("entityId", .str "https://idp.testshib.org/idp/shibboleth"),
      ("singleSignOnService", .dict
        [("url", .str "https://idp.testshib.org/idp/profile/SAML2/Redirect/SSO"),
         ("binding", .str "urn:oasis:names:tc:SAML:2.0:bindings:HTTP-Redirect")]),
      ("x509cert", .str "CERT")]),
   ("organization", .dict []),
   ("security", .dict
     [("metadataValidUntil", .str ""), ("metadataCacheDuration", .str "P10D")]),
   ("sp", .dict
     [("assertionConsumerService", .dict
        [("url", .str ""),
         ("binding", .str "urn:oasis:names:tc:SAML:2.0:bindings:HTTP-POST")]),
      ("entityId", .str ""),
      ("NameIDFormats", .list []),
      ("x509cert", .str ""),
      ("privateKey", .str "")]),
   ("strict", .bool true)]

/-- Witness for C9 on a concrete backend and provider. -/
theorem c9_witness : alookup cCfg9 "strict" = some (.bool true) :=
  c9_strict_mode_forced cB9 cIdp9 cCfg9 (by rfl)

/-- Claim C10: `get_attr` returns `none` exactly when the resolved key is
absent from the attributes; a resolved key present with an empty value
sequence raises the empty-attribute error instead of yielding `none`. -/
theorem c10_get_attr_null_iff_absent (name : String)
    (conf : List (String × String)) (attributes : List (String × AttrVal))
    (conf_key default_attribute : String) :
    (SAMLIdentityProvider.get_attr ⟨name, conf⟩ attributes conf_key
        default_attribute = .ok none
      ↔ alookup attributes ((alookup conf conf_key).getD default_attribute)
          = none) ∧
    (alookup attributes ((alookup conf conf_key).getD default_attribute)
        = some (.vals []) →
      SAMLIdentityProvider.get_attr ⟨name, conf⟩ attributes conf_key
        default_attribute = .error .emptyAttribute) := by
  cases hl : alookup attributes ((alookup conf conf_key).getD default_attribute) with
  | none =>
      refine ⟨⟨fun _ => rfl, fun _ => ?_⟩, fun hv => ?_⟩
      · simp only [SAMLIdentityProvider.get_attr, hl]
      · exact absurd hv (by simp)
  | some v =>
      have hbody : SAMLIdentityProvider.get_attr ⟨name, conf⟩ attributes
          conf_key default_attribute
          = (match v.first with
             | none => .error .emptyAttribute
             | some s => .ok (some s)) := by
        simp only [SAMLIdentityProvider.get_attr, hl]
      refine ⟨⟨fun h => ?_, fun h => ?_⟩, fun hv => ?_⟩
      · rw [hbody] at h
        cases hf : v.first with
        | none => rw [hf] at h; exact absurd h (by simp)
        | some s => rw [hf] at h; exact absurd h (by simp)
      · exact absurd h (by simp)
      · have hveq : v = .vals [] := by
          injection hv
        rw [hbody, hveq]
        rfl

/-- Witness for C10: the default user-id key present with an empty value
sequence makes `get_attr` fail rather than return `none`. -/
theorem c10_witness :
    SAMLIdentityProvider.get_attr ⟨"testshib", []⟩ [(OID_USERID, .vals [])]
      "attr_username" OID_USERID = .error .emptyAttribute :=
  (c10_get_attr_null_iff_absent "testshib" [] [(OID_USERID, .vals [])]
    "attr_username" OID_USERID).2 (by rfl)
